import Mathlib

/-!
Shallow embedding of the hospital-dashboard application (`app.py`): the
record table, the gender/condition filters shared by the chart callbacks,
the five chart transforms, and the startup aggregates over the billing
column.  Rows are Lean structures; the pandas `NaN` that `pd.to_numeric`
produces for a malformed billing value is `Option.none`; a dataframe is a
`List` of rows in row order.
-/

namespace HospitalDashboard

/-- One row of the record table produced by `load_data`: the columns the
callbacks read (Gender, Age, Medical Condition, Insurance Provider,
Billing Amount, Date of Admission's year and month).  A malformed billing
value was coerced to `none` (pandas `NaN`). -/
structure Row where
  gender : String
  age : ℚ
  medicalCondition : String
  insuranceProvider : String
  billing : Option ℚ
  admYear : Nat
  admMonth : Nat
deriving DecidableEq, Repr

/-- The derived `YearMonth` column: the admission date truncated to month
granularity (`dt.to_period('M')`), encoded as the month ordinal so that
chronological order of periods is the order on `Nat`. -/
def yearMonth (r : Row) : Nat := 12 * r.admYear + r.admMonth

/-- The gender filter shared by four callbacks:
`data[data["Gender"] == selected_gender] if selected_gender else data`.
Python truthiness: `None` and the empty string are falsy, so either leaves
the table unfiltered. -/
def filterByGender : Option String → List Row → List Row
  | none, t => t
  | some g, t => if g = "" then t else t.filter (fun r => r.gender == g)

/-- The result of the age-distribution callback `update_distribution`:
either the empty figure `{}` returned on an empty filtered table, or a
histogram figure (per gender sub-group, the ten bin counts). -/
inductive AgeFigure where
  | empty : AgeFigure
  | chart : List (String × List Nat) → AgeFigure
deriving DecidableEq, Repr

/-- Minimum of a list of rationals (0 on the empty list). -/
def minQ : List ℚ → ℚ
  | [] => 0
  | x :: xs => xs.foldl min x

/-- Maximum of a list of rationals (0 on the empty list). -/
def maxQ : List ℚ → ℚ
  | [] => 0
  | x :: xs => xs.foldl max x

/-- Index (0..9) of the equal-width bin a value falls in, for ten bins
spanning `[lo, hi]`; the top bin is closed on the right. -/
def binIndex (lo hi v : ℚ) : Nat :=
  if hi = lo then 0 else min (Int.toNat ⌊(v - lo) / ((hi - lo) / 10)⌋) 9

/-- Modelled from the spec: the external charting call
`px.histogram(df, x="Age", nbins=10, color="Gender")` — "a binned
frequency structure over Age (10 equal-width bins across the filtered
subset's observed range), split by Gender as a sub-grouping".  All
sub-groups share the bins, computed over the whole table's Age range. -/
def pxHistogramByGender (t : List Row) : List (String × List Nat) :=
  let lo := minQ (t.map Row.age)
  let hi := maxQ (t.map Row.age)
  ((t.map Row.gender).dedup).map (fun g =>
    (g, (List.range 10).map (fun i =>
      t.countP (fun r => r.gender == g && binIndex lo hi r.age == i))))

/-- The age-distribution callback `update_distribution`: gender filter,
then `{}` if the filtered frame is empty, else the Age histogram split by
Gender. -/
def update_distribution (selected_gender : Option String) (t : List Row) : AgeFigure :=
  let f := filterByGender selected_gender t
  if f.isEmpty then AgeFigure.empty else AgeFigure.chart (pxHistogramByGender f)

/-- The condition-distribution callback `update_medical_condition`:
gender filter, then `px.pie(df, names="Medical Condition")` — one slice
per distinct condition carrying its row count. -/
def update_medical_condition (selected_gender : Option String) (t : List Row) :
    List (String × Nat) :=
  let f := filterByGender selected_gender t
  ((f.map Row.medicalCondition).dedup).map
    (fun c => (c, f.countP (fun r => r.medicalCondition == c)))

/-- The insurance-comparison callback `update_insurance`: gender filter,
then `px.bar(df, x="Insurance Provider", y="Billing Amount",
color="Medical Condition", barmode="group")`.  `px.bar` draws the
dataframe unaggregated: one bar mark per row, carrying that row's raw
billing value; marks sharing (provider, condition) are stacked on top of
each other.  The figure content is the list of
(provider, condition, billing) marks in row order. -/
def update_insurance (selected_gender : Option String) (t : List Row) :
    List (String × String × Option ℚ) :=
  (filterByGender selected_gender t).map
    (fun r => (r.insuranceProvider, r.medicalCondition, r.billing))

/-- Mean of a list of rationals (0 on the empty list, since division by
zero is 0 in `ℚ`). -/
def meanQ (xs : List ℚ) : ℚ := xs.sum / (xs.length : ℚ)

/-- Modelled from the spec: "grouped aggregation of Billing Amount by
(Insurance Provider, Medical Condition) pair — specifically the mean
billing per group as rendered per-category bars", one bar per group.
Written from the spec's words, to compare with `update_insurance`. -/
def insuranceSpecMeanBars (selected_gender : Option String) (t : List Row) :
    List (String × String × ℚ) :=
  let f := filterByGender selected_gender t
  ((f.map (fun r => (r.insuranceProvider, r.medicalCondition))).dedup).map (fun k =>
    (k.1, k.2, meanQ ((f.filter
      (fun r => r.insuranceProvider == k.1 && r.medicalCondition == k.2)).filterMap Row.billing)))

/-- The bar marks of `update_insurance` belonging to one
(provider, condition) group; their stacked heights render that group's
bar. -/
def groupMarks (bars : List (String × String × Option ℚ)) (p c : String) :
    List (String × String × Option ℚ) :=
  bars.filter (fun b => b.1 == p && b.2.1 == c)

/-- The billing-distribution callback `update_billing`, lines 186-188:
gender filter, then
`filtered_data_frame[filtered_data_frame["Billing Amount"] <= slider_value]`.
A `NaN` billing compares `False` under pandas `<=`, so a row with a
missing billing is dropped.  The kept rows are the dataframe handed to
`px.histogram`. -/
def update_billing (selected_gender : Option String) (slider_value : ℚ) (t : List Row) :
    List Row :=
  (filterByGender selected_gender t).filter (fun r =>
    match r.billing with
    | none => false
    | some b => decide (b ≤ slider_value))

/-- Which chart `update_admission` renders. -/
inductive ChartKind where
  | line : ChartKind
  | bar : ChartKind
deriving DecidableEq, Repr

/-- The condition filter of `update_admission`:
`data[data["Medical Condition"] == selected_condition] if selected_condition else data`,
with the same Python truthiness as the gender filter. -/
def filterByCondition : Option String → List Row → List Row
  | none, t => t
  | some c, t => if c = "" then t else t.filter (fun r => r.medicalCondition == c)

/-- The grouped count series of `update_admission`:
`groupby("YearMonth").size()` — pandas groupby (default `sort=True`)
emits one (period, row count) pair per distinct `YearMonth` key, keys in
ascending order. -/
def trendSeries (selected_condition : Option String) (t : List Row) : List (Nat × Nat) :=
  let f := filterByCondition selected_condition t
  (((f.map yearMonth).toFinset).sort (· ≤ ·)).map
    (fun k => (k, f.countP (fun r => yearMonth r == k)))

/-- The admission-trends callback `update_admission`: condition filter,
Year-Month grouping, and the chart-type branch
`if chart_type == "line": px.line(...) else: px.bar(...)`. -/
def update_admission (chart_type : String) (selected_condition : Option String)
    (t : List Row) : ChartKind × List (Nat × Nat) :=
  (if chart_type = "line" then ChartKind.line else ChartKind.bar,
    trendSeries selected_condition t)

/-- The billing values that are not missing: what every pandas aggregate
over the `Billing Amount` column operates on (`mean`, `min`, `max`,
`median`, `quantile` all skip `NaN`). -/
def validBillings (t : List Row) : List ℚ := t.filterMap Row.billing

/-- `num_records = len(data)`: every row counts, missing billing or not. -/
def num_records (t : List Row) : Nat := t.length

/-- `avg_billing = data["Billing Amount"].mean()`: pandas mean over the
non-missing values. -/
def avg_billing (t : List Row) : ℚ := meanQ (validBillings t)

/-- Insert into a sorted list of rationals, keeping it sorted. -/
def insertSorted (x : ℚ) : List ℚ → List ℚ
  | [] => [x]
  | y :: ys => if x ≤ y then x :: y :: ys else y :: insertSorted x ys

/-- Insertion sort of a list of rationals. -/
def sortQ (xs : List ℚ) : List ℚ := xs.foldr insertSorted []

/-- pandas `Series.quantile(p)` (default linear interpolation) over the
given values: position `p * (n - 1)` in the sorted list, interpolating
between the two neighbouring order statistics.  0 on an empty list. -/
def quantileQ (xs : List ℚ) (p : ℚ) : ℚ :=
  let s := sortQ xs
  if s.length = 0 then 0
  else
    let h : ℚ := p * ((s.length : ℚ) - 1)
    let i : Nat := Int.toNat ⌊h⌋
    let lo := s.getD i 0
    let hi := s.getD (i + 1) lo
    lo + (h - (i : ℚ)) * (hi - lo)

/-- The slider's `min=data["Billing Amount"].min()`. -/
def sliderMin (t : List Row) : ℚ := minQ (validBillings t)

/-- The slider's `max=data["Billing Amount"].max()`. -/
def sliderMax (t : List Row) : ℚ := maxQ (validBillings t)

/-- The slider's default `value=data["Billing Amount"].median()`: the
0.5 quantile of the non-missing values. -/
def sliderDefault (t : List Row) : ℚ := quantileQ (validBillings t) (1 / 2)

/-- Python `int(...)` on a rational: truncation toward zero. -/
def truncQ (q : ℚ) : Int := if q < 0 then ⌈q⌉ else ⌊q⌋

/-- The slider's tick marks: `int(value)` for each value of
`data["Billing Amount"].quantile([0, 0.25, 0.5, 0.75, 1])`. -/
def sliderMarks (t : List Row) : List Int :=
  ([0, 1 / 4, 1 / 2, 3 / 4, 1] : List ℚ).map
    (fun p => truncQ (quantileQ (validBillings t) p))

/-- A sample row: a female diabetes patient with a billing value of 0. -/
def exRowF : Row := ⟨"Female", 30, "Diabetes", "Aetna", some 0, 2021, 3⟩

/-- A sample row sharing `exRowF`'s insurance provider and condition,
with a billing value of 2. -/
def exRowF2 : Row := ⟨"Female", 40, "Diabetes", "Aetna", some 2, 2021, 2⟩

/-- A sample row whose billing value failed numeric coercion (`none`). -/
def exRowNone : Row := ⟨"Male", 55, "Cancer", "Cigna", none, 2020, 12⟩

/-!  Theorems.  -/

/-- Filtering with a Bool predicate that implies another keeps no more
rows than filtering with the weaker one. -/
theorem length_filter_mono {α : Type} (l : List α) (p q : α → Bool)
    (h : ∀ a, p a = true → q a = true) :
    (l.filter p).length ≤ (l.filter q).length :=
  (List.monotone_filter_right l h).length_le

/-- C3: the billing-distribution transform first restricts to the
gender-matching rows and then keeps exactly the rows whose Billing
Amount is `≤` the threshold; a row whose Billing Amount is the
missing-value marker is excluded by that comparison. -/
theorem billing_filter_characterization (g : Option String) (s : ℚ) (t : List Row) (r : Row) :
    (r ∈ update_billing g s t ↔
      r ∈ filterByGender g t ∧ ∃ b, r.billing = some b ∧ b ≤ s) ∧
    (r.billing = none → r ∉ update_billing g s t) := by
  have hiff : r ∈ update_billing g s t ↔
      r ∈ filterByGender g t ∧ ∃ b, r.billing = some b ∧ b ≤ s := by
    unfold update_billing
    rw [List.mem_filter]
    constructor
    · rintro ⟨hm, hp⟩
      refine ⟨hm, ?_⟩
      cases hb : r.billing with
      | none => rw [hb] at hp; simp at hp
      | some b => rw [hb] at hp; exact ⟨b, rfl, by simpa using hp⟩
    · rintro ⟨hm, b, hb, hle⟩
      refine ⟨hm, ?_⟩
      rw [hb]
      simpa using hle
  refine ⟨hiff, fun hnone hmem => ?_⟩
  rcases (hiff.mp hmem).2 with ⟨b, hb, _⟩
  rw [hnone] at hb
  exact Option.noConfusion hb

/-- C4: raising the billing threshold never decreases the number of rows
the billing-distribution transform counts. -/
theorem billing_threshold_monotone (g : Option String) (t : List Row) (s1 s2 : ℚ)
    (h : s1 ≤ s2) :
    (update_billing g s1 t).length ≤ (update_billing g s2 t).length := by
  unfold update_billing
  apply length_filter_mono
  intro r hr
  cases hb : r.billing with
  | none => rw [hb] at hr; simp at hr
  | some b =>
    rw [hb] at hr
    simp only [decide_eq_true_eq] at hr ⊢
    exact le_trans hr h

/-- Witness for C4: with thresholds 1 ≤ 2 on a concrete table. -/
theorem billing_threshold_monotone_witness :
    (update_billing none 1 [exRowF, exRowF2, exRowNone]).length ≤
      (update_billing none 2 [exRowF, exRowF2, exRowNone]).length :=
  billing_threshold_monotone none [exRowF, exRowF2, exRowNone] 1 2 (by norm_num)

/-- C6: any chart-type value other than "line" (so in particular any
value other than "line" and "bar") makes the admission-trends transform
render the bar variant, and "line" selects the line variant; the branch
is total, so no value raises. -/
theorem admission_chart_type_fallback (ct : String) (cond : Option String) (t : List Row)
    (h : ct ≠ "line") :
    (update_admission ct cond t).1 = ChartKind.bar ∧
    (update_admission "line" cond t).1 = ChartKind.line := by
  constructor
  · simp [update_admission, h]
  · simp [update_admission]

/-- Witness for C6: the unrecognized chart-type value "pie" renders bars. -/
theorem admission_chart_type_fallback_witness :
    (update_admission "pie" none [exRowF]).1 = ChartKind.bar ∧
    (update_admission "line" none [exRowF]).1 = ChartKind.line :=
  admission_chart_type_fallback "pie" none [exRowF] (by decide)

/-- C7: whenever the gender-filtered subset is empty, the
age-distribution transform returns the explicit empty figure. -/
theorem age_distribution_empty_subset (g : Option String) (t : List Row)
    (h : filterByGender g t = []) : update_distribution g t = AgeFigure.empty := by
  simp [update_distribution, h]

/-- Witness for C7: a gender absent from a concrete one-row table. -/
theorem age_distribution_empty_subset_witness :
    update_distribution (some "Nobody") [exRowF] = AgeFigure.empty :=
  age_distribution_empty_subset (some "Nobody") [exRowF] (by decide)

/-- C9: the empty string, the falsy gender value a dropdown can hold, is
treated by all four gender-filtered transforms exactly like the absent
filter `None`: the full table is used. -/
theorem falsy_gender_is_no_filter (t : List Row) (s : ℚ) :
    update_distribution (some "") t = update_distribution none t ∧
    update_medical_condition (some "") t = update_medical_condition none t ∧
    update_insurance (some "") t = update_insurance none t ∧
    update_billing (some "") s t = update_billing none s t := by
  have h : filterByGender (some "") t = filterByGender none t := by
    simp [filterByGender]
  exact ⟨by simp [update_distribution, h], by simp [update_medical_condition, h],
    by simp [update_insurance, h], by simp [update_billing, h]⟩

/-- Counterexample to C2 as stated: the empty string is a gender value
that does not occur in the Gender column of a one-row table, yet the
transforms return full-table output, not an empty result, because the
empty string is falsy and disables the filter. -/
theorem absent_gender_claim_counterexample :
    "" ∉ ([exRowF] : List Row).map Row.gender ∧
    update_medical_condition (some "") [exRowF] ≠ [] ∧
    update_insurance (some "") [exRowF] ≠ [] ∧
    update_distribution (some "") [exRowF] ≠ AgeFigure.empty := by decide

/-- C2 amended: for every non-empty gender string absent from the Gender
column, all four gender-filtered transforms return an empty result; each
is a total function, so none raises. -/
theorem absent_gender_empty_results (g : String) (s : ℚ) (t : List Row)
    (hg : g ≠ "") (habs : g ∉ t.map Row.gender) :
    update_distribution (some g) t = AgeFigure.empty ∧
    update_medical_condition (some g) t = [] ∧
    update_insurance (some g) t = [] ∧
    update_billing (some g) s t = [] := by
  have hfil : filterByGender (some g) t = [] := by
    simp only [filterByGender, if_neg hg]
    rw [List.filter_eq_nil_iff]
    intro r hr hbeq
    exact habs (List.mem_map.mpr ⟨r, hr, by simpa using hbeq⟩)
  exact ⟨by simp [update_distribution, hfil], by simp [update_medical_condition, hfil],
    by simp [update_insurance, hfil], by simp [update_billing, hfil]⟩

/-- Witness for the amended C2: a concrete absent gender value. -/
theorem absent_gender_empty_results_witness :
    update_distribution (some "Nonbinary") [exRowF] = AgeFigure.empty ∧
    update_medical_condition (some "Nonbinary") [exRowF] = [] ∧
    update_insurance (some "Nonbinary") [exRowF] = [] ∧
    update_billing (some "Nonbinary") 1 [exRowF] = [] :=
  absent_gender_empty_results "Nonbinary" 1 [exRowF] (by decide) (by decide)

/-- Counterexample to C1 as stated: two rows sharing one
(provider, condition) group, billings 0 and 2.  The figure holds two
marks carrying the raw values, not one bar per group carrying the group
mean 1. -/
theorem insurance_mean_counterexample :
    update_insurance none [exRowF, exRowF2] ≠
      (insuranceSpecMeanBars none [exRowF, exRowF2]).map (fun b => (b.1, b.2.1, some b.2.2)) ∧
    (update_insurance none [exRowF, exRowF2]).length = 2 ∧
    (insuranceSpecMeanBars none [exRowF, exRowF2]).length = 1 ∧
    (update_insurance none [exRowF, exRowF2]).map (fun b => b.2.2) = [some 0, some 2] ∧
    (insuranceSpecMeanBars none [exRowF, exRowF2]).map (fun b => b.2.2) = [1] := by
  have hcode : update_insurance none [exRowF, exRowF2] =
      [("Aetna", "Diabetes", some 0), ("Aetna", "Diabetes", some 2)] := by decide
  have hspec : insuranceSpecMeanBars none [exRowF, exRowF2] = [("Aetna", "Diabetes", 1)] := by
    norm_num [insuranceSpecMeanBars, filterByGender, meanQ, exRowF, exRowF2, List.filterMap_cons]
  refine ⟨?_, ?_, ?_, ?_, ?_⟩ <;> simp only [hcode, hspec] <;> decide

/-- C1 amended: the insurance-comparison transform draws one bar mark per
row of the gender-filtered subset; the marks of a (provider, condition)
group carry exactly that group's raw billing values in row order (their
stacked total is the group's sum of billings, not the mean). -/
theorem insurance_marks_are_rows (g : Option String) (t : List Row) (p c : String) :
    (groupMarks (update_insurance g t) p c).map (fun b => b.2.2) =
      ((filterByGender g t).filter
        (fun r => r.insuranceProvider == p && r.medicalCondition == c)).map Row.billing := by
  unfold groupMarks update_insurance
  rw [List.filter_map, List.map_map]
  rfl

/-- C5: the admission-trends series lists its (period, count) pairs in
strictly ascending period order, and the series is invariant under any
permutation of the input rows. -/
theorem admission_trends_sorted_invariant (cond : Option String) (t t' : List Row)
    (hperm : t.Perm t') :
    List.Sorted (fun a b => a < b) ((trendSeries cond t).map Prod.fst) ∧
    trendSeries cond t = trendSeries cond t' := by
  have hf : (filterByCondition cond t).Perm (filterByCondition cond t') := by
    cases cond with
    | none => exact hperm
    | some c =>
      by_cases hc : c = ""
      · simpa [filterByCondition, hc] using hperm
      · simpa [filterByCondition, hc] using hperm.filter (fun r => r.medicalCondition == c)
  constructor
  · simp only [trendSeries, List.map_map]
    have hid : (Prod.fst ∘ fun k =>
        (k, (filterByCondition cond t).countP (fun r => yearMonth r == k))) = id := rfl
    rw [hid, List.map_id]
    exact Finset.sort_sorted_lt _
  · simp only [trendSeries]
    rw [List.toFinset_eq_of_perm _ _ (hf.map yearMonth)]
    apply List.map_congr_left
    intro k _
    rw [hf.countP_eq]

/-- Witness for C5: a concrete two-row table and its reversal. -/
theorem admission_trends_sorted_invariant_witness :
    List.Sorted (fun a b => a < b) ((trendSeries none [exRowF, exRowNone]).map Prod.fst) ∧
    trendSeries none [exRowF, exRowNone] = trendSeries none [exRowNone, exRowF] :=
  admission_trends_sorted_invariant none [exRowF, exRowNone] [exRowNone, exRowF] (by decide)

/-- C10: appending a row whose billing value failed numeric coercion
leaves every startup aggregate over Billing Amount unchanged — the
displayed average and the slider's min, max, default median and quantile
tick marks — while the displayed record count grows by one. -/
theorem startup_aggregates_skip_missing (t : List Row) (r : Row) (h : r.billing = none) :
    num_records (t ++ [r]) = num_records t + 1 ∧
    avg_billing (t ++ [r]) = avg_billing t ∧
    sliderMin (t ++ [r]) = sliderMin t ∧
    sliderMax (t ++ [r]) = sliderMax t ∧
    sliderDefault (t ++ [r]) = sliderDefault t ∧
    sliderMarks (t ++ [r]) = sliderMarks t := by
  have hv : validBillings (t ++ [r]) = validBillings t := by
    simp [validBillings, h]
  exact ⟨by simp [num_records], by simp only [avg_billing, hv],
    by simp only [sliderMin, hv], by simp only [sliderMax, hv],
    by simp only [sliderDefault, hv], by simp only [sliderMarks, hv]⟩

/-- Witness for C10: appending a concrete missing-billing row. -/
theorem startup_aggregates_skip_missing_witness :
    num_records ([exRowF] ++ [exRowNone]) = num_records [exRowF] + 1 ∧
    avg_billing ([exRowF] ++ [exRowNone]) = avg_billing [exRowF] ∧
    sliderMin ([exRowF] ++ [exRowNone]) = sliderMin [exRowF] ∧
    sliderMax ([exRowF] ++ [exRowNone]) = sliderMax [exRowF] ∧
    sliderDefault ([exRowF] ++ [exRowNone]) = sliderDefault [exRowF] ∧
    sliderMarks ([exRowF] ++ [exRowNone]) = sliderMarks [exRowF] :=
  startup_aggregates_skip_missing [exRowF] exRowNone rfl

/-- Sum of a map over `List.range` as a `Finset.range` sum. -/
theorem list_range_map_sum (f : Nat → Nat) (n : Nat) :
    ((List.range n).map f).sum = ∑ i ∈ Finset.range n, f i := by
  induction n with
  | zero => simp
  | succ n ih =>
    rw [List.range_succ, List.map_append, List.sum_append, Finset.sum_range_succ, ih]
    simp

/-- Every bin index of the ten-bin histogram is below 10. -/
theorem binIndex_lt (lo hi v : ℚ) : binIndex lo hi v < 10 := by
  unfold binIndex
  split
  · norm_num
  · have := min_le_right (Int.toNat ⌊(v - lo) / ((hi - lo) / 10)⌋) 9
    omega

/-- Splitting a count by the (bounded) value of a projection: the
per-bin counts sum to the count of the predicate alone. -/
theorem countP_bin_sum (t : List Row) (p : Row → Bool) (f : Row → Nat) (n : Nat)
    (hf : ∀ r, f r < n) :
    ((List.range n).map (fun i => t.countP (fun r => p r && f r == i))).sum = t.countP p := by
  rw [list_range_map_sum]
  induction t with
  | nil => simp
  | cons a t ih =>
    simp only [List.countP_cons]
    rw [Finset.sum_add_distrib, ih]
    congr 1
    by_cases hp : p a = true
    · simp only [hp, Bool.true_and, beq_iff_eq, if_pos rfl]
      have : ∀ i ∈ Finset.range n, (if f a = i then 1 else 0) = (if f a = i then (fun _ => 1) i else 0) := by
        intro i _
        rfl
      rw [Finset.sum_congr rfl this, Finset.sum_ite_eq]
      simp [Finset.mem_range.mpr (hf a)]
    · simp [hp]

/-- Partitioning a list by the distinct values of a projection: the
per-value counts sum to the length. -/
theorem countP_dedup_sum {α : Type} [DecidableEq α] (t : List Row) (f : Row → α) :
    (((t.map f).dedup).map (fun g => t.countP (fun r => f r == g))).sum = t.length := by
  have hcongr : ((t.map f).dedup).map (fun g => t.countP (fun r => f r == g)) =
      ((t.map f).dedup).map (fun x => (t.map f).count x) := by
    apply List.map_congr_left
    intro g _
    rw [List.count_eq_countP, List.countP_map]
    rfl
  rw [hcongr, List.sum_map_count_dedup_eq_length, List.length_map]

/-- The age histogram's bin counts, summed over every gender sub-group,
count each row exactly once. -/
theorem pxHistogramByGender_total (l : List Row) :
    ((pxHistogramByGender l).map (fun b => b.2.sum)).sum = l.length := by
  have key : ∀ lo hi : ℚ,
      ((((l.map Row.gender).dedup).map (fun g =>
        (g, (List.range 10).map (fun i =>
          l.countP (fun r => r.gender == g && binIndex lo hi r.age == i))))).map
            (fun b => b.2.sum)).sum = l.length := by
    intro lo hi
    rw [List.map_map]
    have hcg : ((l.map Row.gender).dedup).map
        ((fun b : String × List Nat => b.2.sum) ∘ (fun g =>
          (g, (List.range 10).map (fun i =>
            l.countP (fun r => r.gender == g && binIndex lo hi r.age == i))))) =
        ((l.map Row.gender).dedup).map (fun g => l.countP (fun r => r.gender == g)) := by
      apply List.map_congr_left
      intro g _
      exact countP_bin_sum l (fun r => r.gender == g) (fun r => binIndex lo hi r.age) 10
        (fun r => binIndex_lt lo hi r.age)
    rw [hcg]
    exact countP_dedup_sum l Row.gender
  simpa [pxHistogramByGender] using key (minQ (l.map Row.age)) (maxQ (l.map Row.age))

/-- C8: on a non-empty gender-filtered subset the age-distribution
transform returns the ten-bin histogram split by gender, and its bin
counts summed over all gender sub-groups equal the filtered row count. -/
theorem age_histogram_counts_total (g : Option String) (t : List Row)
    (h : filterByGender g t ≠ []) :
    update_distribution g t = AgeFigure.chart (pxHistogramByGender (filterByGender g t)) ∧
    ((pxHistogramByGender (filterByGender g t)).map (fun b => b.2.sum)).sum =
      (filterByGender g t).length := by
  constructor
  · simp [update_distribution, List.isEmpty_iff, h]
  · exact pxHistogramByGender_total _

/-- Witness for C8: a concrete two-row table with no filter. -/
theorem age_histogram_counts_total_witness :
    update_distribution none [exRowF, exRowNone] =
      AgeFigure.chart (pxHistogramByGender (filterByGender none [exRowF, exRowNone])) ∧
    ((pxHistogramByGender (filterByGender none [exRowF, exRowNone])).map
      (fun b => b.2.sum)).sum = (filterByGender none [exRowF, exRowNone]).length :=
  age_histogram_counts_total none [exRowF, exRowNone] (by decide)

end HospitalDashboard
